import Mathlib

/-
Verification of the motion-detector pipeline against its specification.

Shallow embedding notes:
- Python floats are modelled as rationals; machine rounding is abstracted.
- Each definition mirrors one function of the repository source; the Python
  source file and symbol are named in the doc comment.
-/

namespace MotionDetector

/-- Embeds analyzer/monitor_loop.py clamp01: clamp a value to the unit interval. -/
def clamp01 (x : ℚ) : ℚ :=
  if x < 0 then 0 else if x > 1 then 1 else x

/-- Python round() applied to a rational: round half to even (banker's rounding). -/
def pyRound (q : ℚ) : ℤ :=
  let f := Int.floor q
  let frac := q - (f : ℚ)
  if frac < 1/2 then f
  else if frac > 1/2 then f + 1
  else if f % 2 = 0 then f else f + 1

/-- Python int() applied to a rational: truncation toward zero. -/
def pyTrunc (q : ℚ) : ℤ :=
  if 0 ≤ q then Int.floor q else Int.ceil q

/-- Embeds analyzer/monitor_loop.py confidence_from_thresholds: monotonic
confidence estimate in the unit interval from the distance to the two
classification thresholds.  The source returns 0 for an invalid threshold
ordering, a downward ramp below the no-motion threshold, a triangular bump
inside the band, and an upward ramp above the low-activity threshold with
denominator floor 1e-9. -/
def confidence_from_thresholds (ema_activity no_thr low_thr : ℚ) : ℚ :=
  if no_thr ≤ 0 then 0
  else if low_thr ≤ no_thr then 0
  else if ema_activity < no_thr then clamp01 ((no_thr - ema_activity) / no_thr)
  else if ema_activity < low_thr then
    if (1/2) * (low_thr - no_thr) ≤ 0 then 0
    else clamp01 (1 - (|ema_activity - (1/2) * (no_thr + low_thr)| / ((1/2) * (low_thr - no_thr))))
  else
    clamp01 ((ema_activity - low_thr) / max (1 / 1000000000) (1 - low_thr))

/-- Embeds analyzer/recorder.py ClipRecorder state_matches_trigger: the current
state matches when it equals trigger_state or begins with trigger_state
followed by an underscore (Python startswith, modelled as character-list
prefix).  The source performs no comma splitting. -/
def state_matches_trigger (trigger_state : String) (state : String) : Bool :=
  state = trigger_state || List.isPrefixOf (trigger_state ++ "_").data state.data

/-- Python split(",") over a character list: comma-separated pieces, with the
empty string splitting to one empty piece. -/
def splitOnComma : List Char → List (List Char)
  | [] => [[]]
  | c :: cs =>
    let r := splitOnComma cs
    if c = ',' then [] :: r
    else
      match r with
      | [] => [[c]]
      | h :: t => (c :: h) :: t

/-- For comparison with the source definition, modelled from the spec, section
4.3: split trigger_state on commas into one or more labels; a state matches
when it equals any label or begins with any label plus underscore. -/
def specCommaMatches (trigger_state : String) (state : String) : Bool :=
  (splitOnComma trigger_state.data).any
    (fun t => state.data = t || List.isPrefixOf (t ++ ['_']) state.data)

/-- Embeds analyzer/monitor_loop.py MonitorLoop resolve_video_state_with_grace:
clamp the grace period at 0 and the required fraction to the unit interval; if
the period is non-positive, classify from the candidate alone without touching
the vote deque; otherwise append the current (timestamp, candidate) vote, pop
stale votes from the front of the deque, and return NO_MOTION when the fraction
of true votes in the retained window reaches the required fraction.  Returns
the resolved label together with the updated deque. -/
def resolve_video_state_with_grace (grace_period_raw required_raw : ℚ)
    (votes : List (ℚ × Bool)) (ts : ℚ) (no_motion_candidate : Bool) :
    String × List (ℚ × Bool) :=
  let grace_period := max 0 grace_period_raw
  let required := clamp01 required_raw
  if grace_period ≤ 0 then
    ((if no_motion_candidate then "NO_MOTION" else "MOTION_OR_LOW"), votes)
  else
    let appended := votes ++ [(ts, no_motion_candidate)]
    let cutoff := ts - grace_period
    let window := appended.dropWhile (fun p => decide (p.1 < cutoff))
    let n := window.length
    if n = 0 then ("MOTION_OR_LOW", window)
    else
      let k := (window.filter (fun p => p.2)).length
      if required ≤ (k : ℚ) / (n : ℚ) then ("NO_MOTION", window)
      else ("MOTION_OR_LOW", window)

/-- Embeds the classification block of analyzer/monitor_loop.py MonitorLoop
process_frame (the branch with at least one enabled tile): the no-motion
candidate is instant_top1 below the no-motion threshold, the grace resolver
decides NO_MOTION, and otherwise the already-updated EMA against the
low-activity threshold decides LOW_ACTIVITY versus MOTION. -/
def classify_base_state (no_thr low_thr grace_period required : ℚ)
    (votes : List (ℚ × Bool)) (ts instant_top1 ema : ℚ) :
    String × List (ℚ × Bool) :=
  let cand := decide (instant_top1 < no_thr)
  let r := resolve_video_state_with_grace grace_period required votes ts cand
  ((if r.1 = "NO_MOTION" then "NO_MOTION"
    else if ema < low_thr then "LOW_ACTIVITY" else "MOTION"), r.2)

/-- One raw entry of an incoming payload's video.tiles list, as the JSON-ish
dict accepted by server/status_store.py can hold it. -/
inductive TileVal where
  | null : TileVal
  | boolean : Bool → TileVal
  | intVal : ℤ → TileVal
  | floatVal : ℚ → TileVal
  | other : TileVal
deriving DecidableEq, Repr

/-- Embeds the per-entry coercion of server/status_store.py StatusStore
get_payload: None stays null, booleans become null (bool-as-int guard),
numbers become floats, anything else becomes null. -/
def coerce_tile : TileVal → Option ℚ
  | TileVal.null => none
  | TileVal.boolean _ => none
  | TileVal.intVal n => some (n : ℚ)
  | TileVal.floatVal q => some q
  | TileVal.other => none

/-- Embeds the video.tiles normalization pipeline of server/status_store.py
StatusStore get_payload: clamp the effective grid to at least 1x1, take at most
rows*cols raw entries and coerce each, pad a short list with 0.0, truncate to
rows*cols, then force every in-range disabled index to null.  A missing or
non-list tiles value behaves as the empty list. -/
def get_payload_tiles (rows_raw cols_raw : ℤ) (tiles_raw : Option (List TileVal))
    (disabled : List ℤ) : List (Option ℚ) :=
  let rows := max 1 rows_raw
  let cols := max 1 cols_raw
  let n := (rows * cols).toNat
  let base : List (Option ℚ) :=
    match tiles_raw with
    | none => []
    | some l => (l.take n).map coerce_tile
  let padded := base ++ List.replicate (n - base.length) (some 0)
  let truncated := padded.take n
  truncated.mapIdx (fun i v =>
    if disabled.any (fun j => decide (j = (i : ℤ))) then none else v)

/-- One history sample of server/status_store.py: derived timestamp paired with
an opaque payload identifier. -/
abbrev Sample := ℚ × ℕ

/-- Embeds server/status_store.py StatusStore trim_locked: pop samples from the
front of the history deque while the front timestamp is older than
now minus history_seconds. -/
def trim_locked (history_seconds : ℚ) (history : List Sample) (now : ℚ) :
    List Sample :=
  history.dropWhile (fun s => decide (s.1 < now - history_seconds))

/-- Embeds server/status_store.py StatusStore set_latest, restricted to its
history effect: append the sample at its derived timestamp and trim with now
equal to that derived timestamp. -/
def set_latest_history (history_seconds : ℚ) (history : List Sample) (ts : ℚ)
    (p : ℕ) : List Sample :=
  trim_locked history_seconds (history ++ [(ts, p)]) ts

/-- Embeds server/status_store.py StatusStore set_disabled_tiles: keep the
non-negative integers of the input, de-duplicate and sort ascending (Python
sorted over a set comprehension). -/
def set_disabled_tiles (x : List ℤ) : List ℤ :=
  ((x.filter (fun i => decide (0 ≤ i))).toFinset).sort (· ≤ ·)

/-- Embeds server/status_store.py StatusStore get_disabled_tiles: return a copy
of the stored list unchanged. -/
def get_disabled_tiles (stored : List ℤ) : List ℤ :=
  stored

/-- Embeds server/server.py put_tiles: after validating that the body is a list
of integers (guaranteed here by the type), replace the store's disabled tiles
and respond with the freshly read stored list. -/
def put_tiles (x : List ℤ) : List ℤ :=
  get_disabled_tiles (set_disabled_tiles x)

/-- Inputs of one monitor tick that determine the published video state and
overall summary in analyzer/monitor_loop.py. -/
structure TickInput where
  capture_ok : Bool
  warm : Bool
  all_disabled : Bool
  instant_top1 : ℚ
  ema_updated : ℚ
  ts : ℚ
  votes : List (ℚ × Bool)
  audio_available : Bool
  audio_detected : Bool

/-- Embeds the (video.state, overall.state, overall.reasons) triple published
by analyzer/monitor_loop.py for one tick: error_payload on capture failure,
the warming-up placeholder when no comparable previous frame exists, the
ALL_TILES_DISABLED branch when every tile is masked, and otherwise the
classified base state suffixed by the audio annotation, with overall OK
exactly when the base state is MOTION.  The AudioLevel record always carries
a detected field, so the getattr fallback on max(left, right) is never
consulted. -/
def tick_summary (no_thr low_thr grace_period required : ℚ) (inp : TickInput) :
    String × String × List String :=
  if !inp.capture_ok then ("ERROR", "NOT_OK", ["capture_error"])
  else if inp.warm then ("ERROR", "NOT_OK", ["warming_up"])
  else if inp.all_disabled then
    ("ALL_TILES_DISABLED", "OK", ["all_tiles_disabled"])
  else
    let base := (classify_base_state no_thr low_thr grace_period required
      inp.votes inp.ts inp.instant_top1 inp.ema_updated).1
    let overall_state := if base = "MOTION" then "OK" else "NOT_OK"
    let overall_reasons : List String :=
      if base = "MOTION" then [] else ["no_motion_enabled_tiles"]
    let suffix :=
      if inp.audio_available then
        (if inp.audio_detected then "_WITH_AUDIO" else "_NO_AUDIO")
      else "_NOSOUNDHARDWARE"
    (base ++ suffix, overall_state, overall_reasons)

/-- The classified base state of one tick (NO_MOTION, LOW_ACTIVITY or MOTION)
before the audio suffix is appended, as computed in the enabled-tiles branch
of analyzer/monitor_loop.py MonitorLoop process_frame. -/
def tick_base (no_thr low_thr grace_period required : ℚ) (inp : TickInput) : String :=
  (classify_base_state no_thr low_thr grace_period required inp.votes inp.ts
    inp.instant_top1 inp.ema_updated).1

/-- Mutable state of the Schmitt-triggered detector loop in
analyzer/audio_meter.py run_pycaw: the current flag, the monotonic time of the
last state change, and the bounded smoothing window (most recent last). -/
structure SchmittState where
  has_audio : Bool
  last_change : ℚ
  window : List ℚ
deriving Repr

/-- Embeds the threshold clamping of analyzer/audio_meter.py AudioMeter
construction: on_threshold and off_threshold are forced into the unit
interval before any comparison uses them. -/
def clampThreshold (x : ℚ) : ℚ :=
  max 0 (min 1 x)

/-- The bounded smoothing deque of analyzer/audio_meter.py run_pycaw after
appending one peak: a deque with maxlen smooth drops from the front when
full. -/
def smoothWindow (smooth : ℕ) (window : List ℚ) (peak : ℚ) : List ℚ :=
  let w0 := window ++ [peak]
  if w0.length > smooth then w0.drop (w0.length - smooth) else w0

/-- smooth_peak of analyzer/audio_meter.py run_pycaw: the mean of the
smoothing window after appending the current peak. -/
def smoothPeak (smooth : ℕ) (window : List ℚ) (peak : ℚ) : ℚ :=
  (smoothWindow smooth window peak).sum / ((smoothWindow smooth window peak).length : ℚ)

/-- elapsed_ms of analyzer/audio_meter.py run_pycaw: whole milliseconds since
the last state change (Python int() truncation). -/
def elapsedMs (last_change now : ℚ) : ℤ :=
  pyTrunc ((now - last_change) * 1000)

/-- Embeds one iteration of analyzer/audio_meter.py AudioMeter run_pycaw:
append the block peak into the bounded smoothing window, take the window mean
as smooth_peak, compute the elapsed milliseconds since the last state change,
and flip the flag only when the respective threshold comparison and the hold
time both pass.  Returns the new state and the published detected flag. -/
def pycaw_step (on_thr off_thr : ℚ) (hold_ms : ℤ) (smooth : ℕ)
    (st : SchmittState) (peak now : ℚ) : SchmittState × Bool :=
  let w := smoothWindow smooth st.window peak
  let sp := smoothPeak smooth st.window peak
  let el := elapsedMs st.last_change now
  if !st.has_audio && decide (on_thr ≤ sp) && decide (hold_ms ≤ el) then
    ({ has_audio := true, last_change := now, window := w }, true)
  else if st.has_audio && decide (sp ≤ off_thr) && decide (hold_ms ≤ el) then
    ({ has_audio := false, last_change := now, window := w }, false)
  else
    ({ st with window := w }, st.has_audio)

/-- Embeds the per-block detected value of analyzer/audio_meter.py AudioMeter
run_loopback: published detected is simply peak at or above on_threshold, with
no smoothing window, no hold time, and no hysteresis. -/
def loopback_detected (on_thr peak : ℚ) : Bool :=
  decide (on_thr ≤ peak)

/-- The sequence of detected values published by the loopback backend for a
sequence of block peaks. -/
def loopback_detected_trace (on_thr : ℚ) (peaks : List ℚ) : List Bool :=
  peaks.map (loopback_detected on_thr)

/-- Configuration of analyzer/recorder.py RecorderConfig (writer-relevant
fields; assets_dir only affects file naming and is omitted). -/
structure RecorderCfg where
  enabled : Bool
  trigger_state : String
  clip_seconds : ℤ
  cooldown_seconds : ℤ
  fps : ℚ
  stop_grace_seconds : ℤ

/-- A recorded frame, abstracted to an identifier. -/
abbrev Frame := ℕ

/-- State of analyzer/recorder.py ClipRecorder.  The OpenCV writer is
abstracted to the list of frames written to the open clip (none when idle);
closed_clips accumulates released clips so that whole-run properties can be
stated. -/
structure RecorderState where
  writer : Option (List Frame)
  frames_left : ℤ
  last_start_ts : ℚ
  stop_deadline_ts : Option ℚ
  closed_clips : List (List Frame)
deriving Repr

namespace ClipRecorder

/-- The frame budget assigned at clip start in analyzer/recorder.py
ClipRecorder maybe_start: max(1, round(clip_seconds * fps)). -/
def frameBudget (cfg : RecorderCfg) : ℤ :=
  max 1 (pyRound ((cfg.clip_seconds : ℚ) * cfg.fps))

/-- Initial recorder state: idle, empty budget, epoch last start. -/
def initState : RecorderState :=
  { writer := none, frames_left := 0, last_start_ts := 0,
    stop_deadline_ts := none, closed_clips := [] }

/-- Embeds analyzer/recorder.py ClipRecorder stop: release the writer (the
open clip moves to the closed list), zero the budget, clear the deadline. -/
def stop (st : RecorderState) : RecorderState :=
  { writer := none, frames_left := 0, last_start_ts := st.last_start_ts,
    stop_deadline_ts := none,
    closed_clips := st.closed_clips ++ (match st.writer with
      | none => []
      | some ws => [ws]) }

/-- Embeds analyzer/recorder.py ClipRecorder maybe_start: start a clip only
when the state matches the trigger, the recorder is idle, and the cooldown
(enforced only when positive) has elapsed.  Whether a usable OpenCV
VideoWriter can be opened for this attempt (the mp4 writer or the avi
fallback in open_writer) is abstracted as the Boolean open_ok; when both
writers fail the source returns without starting a session and without
touching any state, the cooldown timestamp included.  A fresh clip gets the
frame budget, records the start time, and clears any stop deadline. -/
def maybeStart (cfg : RecorderCfg) (st : RecorderState) (now_ts : ℚ)
    (state : String) (open_ok : Bool) : RecorderState :=
  if !(state_matches_trigger cfg.trigger_state state) then st
  else if st.writer.isSome then st
  else if cfg.cooldown_seconds > 0 ∧ now_ts - st.last_start_ts < (cfg.cooldown_seconds : ℚ) then st
  else if !open_ok then st
  else
    { st with writer := some [], frames_left := frameBudget cfg, last_start_ts := now_ts, stop_deadline_ts := none }

/-- Embeds analyzer/recorder.py ClipRecorder write_frame: a no-op while idle;
otherwise append the frame, decrement the budget, and stop when the budget is
exhausted. -/
def writeFrame (st : RecorderState) (frame : Frame) : RecorderState :=
  match st.writer with
  | none => st
  | some ws =>
    let st2 := { st with writer := some (ws ++ [frame]), frames_left := st.frames_left - 1 }
    if st2.frames_left ≤ 0 then stop st2 else st2

/-- Embeds analyzer/recorder.py ClipRecorder update: no-op when disabled; try
to start (open_ok abstracts whether a VideoWriter opens for that attempt);
if still idle, return; while the trigger matches cancel the stop deadline
and write; otherwise arm the deadline once, stop when it has passed, and
write the frame during the grace window. -/
def update (cfg : RecorderCfg) (st : RecorderState) (now_ts : ℚ)
    (state : String) (frame : Frame) (open_ok : Bool) : RecorderState :=
  if !cfg.enabled then st
  else
    let st1 := maybeStart cfg st now_ts state open_ok
    match st1.writer with
    | none => st1
    | some _ =>
      if state_matches_trigger cfg.trigger_state state then
        writeFrame { st1 with stop_deadline_ts := none } frame
      else
        let dl := st1.stop_deadline_ts.getD (now_ts + (cfg.stop_grace_seconds : ℚ))
        let st2 := { st1 with stop_deadline_ts := some dl }
        if dl ≤ now_ts then stop st2
        else writeFrame st2 frame

/-- The clip-budget invariant: every closed clip fits the budget, and an open
clip's written frames plus its remaining budget equal the full budget with at
least one frame left. -/
def budgetOK (cfg : RecorderCfg) (st : RecorderState) : Prop :=
  (∀ c ∈ st.closed_clips, (c.length : ℤ) ≤ frameBudget cfg)
  ∧ (∀ ws, st.writer = some ws →
      ((ws.length : ℤ) + st.frames_left = frameBudget cfg ∧ 1 ≤ st.frames_left))

/-- Run the recorder over a trace of (timestamp, state, frame, writer-opens)
ticks from the initial state, as the monitor loop drives it; the last
component of each tick abstracts whether a VideoWriter would open on that
tick's start attempt. -/
def run (cfg : RecorderCfg) (ticks : List (ℚ × String × Frame × Bool)) : RecorderState :=
  ticks.foldl (fun st t => update cfg st t.1 t.2.1 t.2.2.1 t.2.2.2) initState

/-- All clips of a recorder state: the closed ones plus the open one. -/
def allClips (st : RecorderState) : List (List Frame) :=
  st.closed_clips ++ (match st.writer with
    | none => []
    | some ws => [ws])

end ClipRecorder

/-
Helper lemmas shared by the claim theorems.
-/

theorem clamp01_nonneg (x : ℚ) : 0 ≤ clamp01 x := by
  unfold clamp01
  split_ifs <;> linarith

theorem clamp01_le_one (x : ℚ) : clamp01 x ≤ 1 := by
  unfold clamp01
  split_ifs <;> linarith

theorem clamp01_one : clamp01 1 = 1 := by
  unfold clamp01
  norm_num

theorem clamp01_zero : clamp01 0 = 0 := by
  unfold clamp01
  norm_num

/-- For a list whose measure is pairwise non-decreasing, dropping the stale
prefix is the same as filtering out every stale element. -/
theorem dropWhile_eq_filter_of_sorted {α : Type} (f : α → ℚ) (c : ℚ) :
    ∀ l : List α, l.Pairwise (fun a b => f a ≤ f b) →
      l.dropWhile (fun a => decide (f a < c)) = l.filter (fun a => decide (c ≤ f a)) := by
  intro l
  induction l with
  | nil => intro _; rfl
  | cons a t ih =>
    intro hp
    rcases List.pairwise_cons.mp hp with ⟨ha, ht⟩
    by_cases hac : f a < c
    · rw [List.dropWhile_cons_of_pos (by simpa using hac),
        List.filter_cons_of_neg (by simpa using not_le.mpr hac)]
      exact ih ht
    · rw [List.dropWhile_cons_of_neg (by simpa using hac),
        List.filter_cons_of_pos (by simpa using not_lt.mp hac)]
      congr 1
      refine (List.filter_eq_self.mpr ?_).symm
      intro b hb
      simpa using le_trans (not_lt.mp hac) (ha b hb)

/-- C7: confidence_from_thresholds returns 0 under an invalid threshold
ordering (low_thr at most no_thr, or no_thr at most 0); otherwise it returns
clamp01 of the downward ramp below no_thr, a triangular value inside the band
that peaks at 1 at the midpoint and reaches 0 at both band boundaries, and
clamp01 of the upward ramp above low_thr with denominator floor 1e-9; the
result always lies in the unit interval. -/
theorem confidence_spec (ema no_thr low_thr : ℚ) :
    (0 ≤ confidence_from_thresholds ema no_thr low_thr
      ∧ confidence_from_thresholds ema no_thr low_thr ≤ 1)
    ∧ ((low_thr ≤ no_thr ∨ no_thr ≤ 0) →
        confidence_from_thresholds ema no_thr low_thr = 0)
    ∧ (no_thr < low_thr → 0 < no_thr → ema < no_thr →
        confidence_from_thresholds ema no_thr low_thr
          = clamp01 ((no_thr - ema) / no_thr))
    ∧ (no_thr < low_thr → 0 < no_thr → no_thr ≤ ema → ema < low_thr →
        (confidence_from_thresholds ema no_thr low_thr
            = clamp01 (1 - |ema - (1/2) * (no_thr + low_thr)| / ((1/2) * (low_thr - no_thr)))
          ∧ (ema = (1/2) * (no_thr + low_thr) →
              confidence_from_thresholds ema no_thr low_thr = 1)
          ∧ (ema = no_thr → confidence_from_thresholds ema no_thr low_thr = 0)))
    ∧ (no_thr < low_thr → 0 < no_thr → low_thr ≤ ema →
        (confidence_from_thresholds ema no_thr low_thr
            = clamp01 ((ema - low_thr) / max (1 / 1000000000) (1 - low_thr))
          ∧ (ema = low_thr → confidence_from_thresholds ema no_thr low_thr = 0))) := by
  unfold confidence_from_thresholds
  refine ⟨?_, ?_, ?_, ?_, ?_⟩
  · split_ifs <;>
      first
      | exact ⟨le_refl 0, by norm_num⟩
      | exact ⟨clamp01_nonneg _, clamp01_le_one _⟩
  · intro h
    rcases h with h | h
    · split_ifs <;> rfl
    · split_ifs
      rfl
  · intro hord hpos hlt
    rw [if_neg (not_le.mpr hpos), if_neg (not_le.mpr hord), if_pos hlt]
  · intro hord hpos hge hlt
    have hhalf : ¬ ((1/2) * (low_thr - no_thr) ≤ 0) := by
      push_neg
      linarith
    rw [if_neg (not_le.mpr hpos), if_neg (not_le.mpr hord), if_neg (not_lt.mpr hge),
      if_pos hlt, if_neg hhalf]
    refine ⟨rfl, ?_, ?_⟩
    · intro hmid
      rw [hmid]
      simp only [sub_self, abs_zero, zero_div, sub_zero]
      exact clamp01_one
    · intro heq
      have hne : (1/2) * (low_thr - no_thr) ≠ 0 := by linarith
      have habs : |ema - (1/2) * (no_thr + low_thr)| = (1/2) * (low_thr - no_thr) := by
        rw [heq]
        rw [abs_of_nonpos (by linarith)]
        ring
      rw [habs, div_self hne]
      simpa using clamp01_zero
  · intro hord hpos hge
    rw [if_neg (not_le.mpr hpos), if_neg (not_le.mpr hord), if_neg (by push_neg; linarith),
      if_neg (not_lt.mpr hge)]
    refine ⟨rfl, ?_⟩
    intro heq
    rw [heq]
    simpa using clamp01_zero

/-- C7 witness: the band branch at ema 4, thresholds 3 and 5, evaluates to the
triangular form, to 1 at the midpoint, and the bounds hold. -/
theorem confidence_spec_witness :
    (0 ≤ confidence_from_thresholds 4 3 5 ∧ confidence_from_thresholds 4 3 5 ≤ 1)
    ∧ (confidence_from_thresholds 4 3 5
        = clamp01 (1 - |4 - (1/2) * (3 + 5)| / ((1/2) * (5 - 3)))
      ∧ ((4:ℚ) = (1/2) * (3 + 5) → confidence_from_thresholds 4 3 5 = 1)) := by
  refine ⟨(confidence_spec 4 3 5).1, ?_, ?_⟩
  · exact ((confidence_spec 4 3 5).2.2.2.1 (by decide) (by decide) (by decide) (by decide)).1
  · exact ((confidence_spec 4 3 5).2.2.2.1 (by decide) (by decide) (by decide) (by decide)).2.1

/-- C6 counterexample: with trigger_state holding two comma-separated labels,
a current state equal to the second label does not match in the source,
although the claimed comma-splitting semantics matches it. -/
theorem trigger_comma_counterexample :
    state_matches_trigger "NO_MOTION,LOW_ACTIVITY" "LOW_ACTIVITY" = false
    ∧ specCommaMatches "NO_MOTION,LOW_ACTIVITY" "LOW_ACTIVITY" = true := by
  exact ⟨by decide, by decide⟩

/-- C6 amended: the recorder treats trigger_state as one single label with no
comma splitting; a state matches exactly when it equals trigger_state or is
trigger_state followed by an underscore and any suffix. -/
theorem trigger_match_spec (trig s : String) :
    state_matches_trigger trig s = true
      ↔ (s = trig ∨ ∃ suffix : String, s = trig ++ "_" ++ suffix) := by
  unfold state_matches_trigger
  rw [Bool.or_eq_true]
  constructor
  · rintro (h | h)
    · left
      exact of_decide_eq_true h
    · right
      rcases List.isPrefixOf_iff_prefix.mp h with ⟨t, ht⟩
      refine ⟨String.mk t, String.ext ?_⟩
      rw [String.data_append, String.data_append]
      exact ht.symm
  · rintro (h | ⟨suf, h⟩)
    · left
      subst h
      simp
    · right
      apply List.isPrefixOf_iff_prefix.mpr
      refine ⟨suf.data, ?_⟩
      rw [h, String.data_append, String.data_append, String.data_append]

/-- With a non-positive grace period the resolver classifies from the
candidate alone and leaves the vote deque untouched. -/
theorem resolve_grace_nonpos (g r : ℚ) (votes : List (ℚ × Bool)) (ts : ℚ)
    (cand : Bool) (h : g ≤ 0) :
    resolve_video_state_with_grace g r votes ts cand
      = ((if cand then "NO_MOTION" else "MOTION_OR_LOW"), votes) := by
  unfold resolve_video_state_with_grace
  rw [if_pos (max_le (le_refl 0) h)]

/-- With a positive grace period the resolver appends the vote, drops the
stale prefix, and compares the true-vote fraction with the required share;
the retained window is never empty. -/
theorem resolve_grace_pos (g r : ℚ) (votes : List (ℚ × Bool)) (ts : ℚ)
    (cand : Bool) (h : 0 < g) :
    resolve_video_state_with_grace g r votes ts cand
      = ((if clamp01 r ≤
            ((((votes ++ [(ts, cand)]).dropWhile (fun p => decide (p.1 < ts - g))).filter
                (fun p => p.2)).length : ℚ)
              / (((votes ++ [(ts, cand)]).dropWhile (fun p => decide (p.1 < ts - g))).length : ℚ)
          then "NO_MOTION" else "MOTION_OR_LOW"),
         (votes ++ [(ts, cand)]).dropWhile (fun p => decide (p.1 < ts - g))) := by
  have hmax : max 0 g = g := max_eq_right h.le
  have hne : (votes ++ [(ts, cand)]).dropWhile (fun p => decide (p.1 < ts - g)) ≠ [] := by
    intro hnil
    have hall := List.dropWhile_eq_nil_iff.mp hnil (ts, cand) (by simp)
    have : ts < ts - g := of_decide_eq_true hall
    linarith
  unfold resolve_video_state_with_grace
  rw [if_neg (by rw [hmax]; exact not_le.mpr h), hmax]
  have hlen : ((votes ++ [(ts, cand)]).dropWhile (fun p => decide (p.1 < ts - g))).length ≠ 0 :=
    fun h0 => hne (List.eq_nil_of_length_eq_zero h0)
  rw [if_neg hlen]
  dsimp only
  split_ifs <;> rfl

/-- The resolver label is one of the two internal strings. -/
theorem resolve_label_cases (g r : ℚ) (votes : List (ℚ × Bool)) (ts : ℚ)
    (cand : Bool) :
    (resolve_video_state_with_grace g r votes ts cand).1 = "NO_MOTION"
    ∨ (resolve_video_state_with_grace g r votes ts cand).1 = "MOTION_OR_LOW" := by
  by_cases hg : g ≤ 0
  · rw [resolve_grace_nonpos g r votes ts cand hg]
    cases cand <;> simp
  · rw [resolve_grace_pos g r votes ts cand (not_le.mp hg)]
    dsimp only
    split_ifs <;> simp

/-- When the two branch values differ, an if-expression equals its then-value
exactly when the condition holds. -/
theorem if_eq_left_iff {α : Type} {c : Prop} [Decidable c] {a b : α} (hab : a ≠ b) :
    ((if c then a else b) = a) ↔ c := by
  by_cases hc : c
  · simp [hc]
  · simp [hc]
    intro h
    exact hab h.symm

/-- When the two branch values differ, an if-expression equals its else-value
exactly when the condition fails. -/
theorem if_eq_right_iff {α : Type} {c : Prop} [Decidable c] {a b : α} (hab : a ≠ b) :
    ((if c then a else b) = b) ↔ ¬c := by
  by_cases hc : c
  · simp [hc]
    exact hab
  · simp [hc]

/-- The wrapper that turns the resolver label into the base state equals
NO_MOTION exactly when the label does. -/
theorem classify_wrap_eq_no_iff (label : String) (ema low_thr : ℚ) :
    ((if label = "NO_MOTION" then "NO_MOTION"
      else if ema < low_thr then "LOW_ACTIVITY" else "MOTION") = "NO_MOTION")
      ↔ label = "NO_MOTION" := by
  by_cases hl : label = "NO_MOTION"
  · simp [hl]
  · rw [if_neg hl]
    constructor
    · intro h1
      exfalso
      revert h1
      split_ifs <;> simp
    · intro h1
      exact absurd h1 hl

/-- C1: with at least one enabled tile, a non-positive grace period
classifies NO_MOTION exactly when instant_top1 is below the no-motion
threshold and keeps no vote memory; a positive grace period appends the
current vote, retains a non-empty window obtained by dropping votes older
than ts minus the grace period (for time-ordered votes this drops exactly
the stale ones), and resolves NO_MOTION exactly when the retained true-vote
fraction reaches the required share; whenever the resolution is not
NO_MOTION the base state is LOW_ACTIVITY for EMA below the low-activity
threshold and MOTION otherwise. -/
theorem grace_classification_spec (no_thr low_thr g r : ℚ)
    (votes : List (ℚ × Bool)) (ts top1 ema : ℚ) :
    (g ≤ 0 →
      (((classify_base_state no_thr low_thr g r votes ts top1 ema).1 = "NO_MOTION"
          ↔ top1 < no_thr)
        ∧ (classify_base_state no_thr low_thr g r votes ts top1 ema).2 = votes))
    ∧ (0 < g →
        ((classify_base_state no_thr low_thr g r votes ts top1 ema).2
            = (votes ++ [(ts, decide (top1 < no_thr))]).dropWhile
                (fun p => decide (p.1 < ts - g))
          ∧ 0 < (classify_base_state no_thr low_thr g r votes ts top1 ema).2.length
          ∧ ((classify_base_state no_thr low_thr g r votes ts top1 ema).1 = "NO_MOTION"
              ↔ clamp01 r ≤
                  (((classify_base_state no_thr low_thr g r votes ts top1 ema).2.filter
                      (fun p => p.2)).length : ℚ)
                    / (((classify_base_state no_thr low_thr g r votes ts top1 ema).2.length : ℚ)))
          ∧ (votes.Pairwise (fun a b => a.1 ≤ b.1) → (∀ v ∈ votes, v.1 ≤ ts) →
              (classify_base_state no_thr low_thr g r votes ts top1 ema).2
                = (votes ++ [(ts, decide (top1 < no_thr))]).filter
                    (fun p => decide (ts - g ≤ p.1)))))
    ∧ ((classify_base_state no_thr low_thr g r votes ts top1 ema).1 ≠ "NO_MOTION" →
        (((classify_base_state no_thr low_thr g r votes ts top1 ema).1 = "LOW_ACTIVITY")
            ↔ ema < low_thr)
        ∧ (((classify_base_state no_thr low_thr g r votes ts top1 ema).1 = "MOTION")
            ↔ low_thr ≤ ema)) := by
  refine ⟨?_, ?_, ?_⟩
  · intro hg
    simp only [classify_base_state]
    rw [resolve_grace_nonpos g r votes ts (decide (top1 < no_thr)) hg]
    refine ⟨?_, rfl⟩
    rw [classify_wrap_eq_no_iff]
    by_cases hc : top1 < no_thr
    · simp [hc]
    · simp [hc]
  · intro hg
    have hne : (votes ++ [(ts, decide (top1 < no_thr))]).dropWhile
        (fun p => decide (p.1 < ts - g)) ≠ [] := by
      intro hnil
      have hall := List.dropWhile_eq_nil_iff.mp hnil (ts, decide (top1 < no_thr)) (by simp)
      have hlt : ts < ts - g := of_decide_eq_true hall
      linarith
    simp only [classify_base_state]
    rw [resolve_grace_pos g r votes ts (decide (top1 < no_thr)) hg]
    refine ⟨rfl, List.length_pos.mpr hne, ?_, ?_⟩
    · rw [classify_wrap_eq_no_iff]
      exact if_eq_left_iff (by decide)
    · intro hsorted hle
      have hp : (votes ++ [(ts, decide (top1 < no_thr))]).Pairwise
          (fun a b => a.1 ≤ b.1) := by
        rw [List.pairwise_append]
        exact ⟨hsorted, List.pairwise_singleton _ _, by
          intro a ha b hb
          rw [List.mem_singleton] at hb
          rw [hb]
          exact hle a ha⟩
      exact dropWhile_eq_filter_of_sorted (fun p : ℚ × Bool => p.1) (ts - g) _ hp
  · intro hne
    rcases resolve_label_cases g r votes ts (decide (top1 < no_thr)) with h0 | h0
    · exfalso
      apply hne
      simp only [classify_base_state]
      rw [h0]
      simp
    · have hcls : (classify_base_state no_thr low_thr g r votes ts top1 ema).1
          = (if ema < low_thr then "LOW_ACTIVITY" else "MOTION") := by
        simp only [classify_base_state]
        rw [h0]
        rw [if_neg (by decide)]
      rw [hcls]
      constructor
      · exact if_eq_left_iff (by decide)
      · rw [if_eq_right_iff (by decide), not_lt]

/-- C1 witness: the zero-grace instance classifies without memory, the
positive-grace instance retains the dropWhile window (equal to the filtered
window for time-ordered votes), and the non-NO_MOTION instance resolves the
EMA comparison. -/
theorem grace_classification_spec_witness :
    ((classify_base_state 3 6 0 1 [] 5 5 7).1 = "NO_MOTION" ↔ (5:ℚ) < 3)
    ∧ (classify_base_state 3 6 0 1 [] 5 5 7).2 = []
    ∧ ((classify_base_state 3 6 2 1 [(1, true)] 5 5 7).2
        = ([((1:ℚ), true)] ++ [((5:ℚ), decide ((5:ℚ) < 3))]).dropWhile
            (fun p => decide (p.1 < 5 - 2)))
    ∧ ((classify_base_state 3 6 2 1 [(1, true)] 5 5 7).2
        = ([((1:ℚ), true)] ++ [((5:ℚ), decide ((5:ℚ) < 3))]).filter
            (fun p => decide (5 - 2 ≤ p.1)))
    ∧ ((classify_base_state 3 6 0 1 [] 5 5 7).1 = "LOW_ACTIVITY" ↔ (7:ℚ) < 6) :=
  ⟨((grace_classification_spec 3 6 0 1 [] 5 5 7).1 (by decide)).1,
   ((grace_classification_spec 3 6 0 1 [] 5 5 7).1 (by decide)).2,
   ((grace_classification_spec 3 6 2 1 [(1, true)] 5 5 7).2.1 (by decide)).1,
   ((grace_classification_spec 3 6 2 1 [(1, true)] 5 5 7).2.1 (by decide)).2.2.2
     (by decide) (by decide),
   ((grace_classification_spec 3 6 0 1 [] 5 5 7).2.2 (by decide)).1⟩

/-- C2 counterexample: with tile 0 disabled in the store, a numeric source
tile is returned as null by get_payload, not as its float value, so the
claimed unconditional numeric-to-float coercion of the returned list fails
whenever the mask is in effect. -/
theorem payload_tiles_mask_counterexample :
    get_payload_tiles 1 1 (some [TileVal.floatVal 7]) [0] = [none]
    ∧ coerce_tile (TileVal.floatVal 7) = some 7
    ∧ ¬ ((none : Option ℚ) = some 7) := by
  exact ⟨by decide, rfl, by decide⟩

/-- C2 amended: get_payload returns video.tiles with exactly rows*cols
entries (grid clamped to at least 1x1); each entry is the coercion of the
corresponding source entry (null, booleans and non-numbers to null, numbers
to float, missing positions padded with 0.0, extra positions truncated),
except that every index present in the disabled mask is forced to null. -/
theorem payload_tiles_spec (rows cols : ℤ) (src : Option (List TileVal))
    (d : List ℤ) :
    (get_payload_tiles rows cols src d).length = ((max 1 rows) * (max 1 cols)).toNat
    ∧ ∀ i, i < ((max 1 rows) * (max 1 cols)).toNat →
        (get_payload_tiles rows cols src d).getD i none =
          (if (i : ℤ) ∈ d then none
           else
             match src with
             | none => some 0
             | some l => if i < l.length then coerce_tile (l.getD i TileVal.null)
                         else some 0) := by
  have hbase : ∀ (l : List TileVal) (n : ℕ), ((l.take n).map coerce_tile).length ≤ n := by
    intro l n
    rw [List.length_map, List.length_take]
    exact min_le_left _ _
  constructor
  · unfold get_payload_tiles
    cases src with
    | none =>
      simp [List.length_mapIdx, List.length_take, List.length_append, List.length_replicate]
    | some l =>
      have h := hbase l ((max 1 rows) * (max 1 cols)).toNat
      simp only [List.length_mapIdx, List.length_take, List.length_append,
        List.length_replicate]
      omega
  · intro i hi
    unfold get_payload_tiles
    have hmask : ∀ b : Option ℚ,
        (if (List.any d fun j => decide (j = (i : ℤ))) = true then (none : Option ℚ) else b)
          = (if (i : ℤ) ∈ d then none else b) := by
      intro b
      by_cases hd : (i : ℤ) ∈ d
      · rw [if_pos hd, if_pos]
        rw [List.any_eq_true]
        exact ⟨(i : ℤ), hd, by simp⟩
      · rw [if_neg hd, if_neg]
        rw [List.any_eq_true]
        rintro ⟨j, hj, hj2⟩
        exact hd ((of_decide_eq_true hj2) ▸ hj)
    cases src with
    | none =>
      dsimp only
      simp only [List.length_nil]
      rw [List.nil_append, List.getD_eq_getElem?_getD, List.getElem?_mapIdx,
        List.getElem?_take, if_pos hi, List.getElem?_replicate, if_pos (by omega)]
      rw [Option.map_some', Option.getD_some]
      exact hmask _
    | some l =>
      have hb := hbase l ((max 1 rows) * (max 1 cols)).toNat
      dsimp only
      rw [List.getD_eq_getElem?_getD, List.getElem?_mapIdx, List.getElem?_take, if_pos hi,
        List.getElem?_append]
      by_cases hil : i < ((l.take ((max 1 rows) * (max 1 cols)).toNat).map coerce_tile).length
      · have hill : i < l.length := by
          rw [List.length_map, List.length_take] at hil
          omega
        rw [if_pos hil, List.getElem?_map, List.getElem?_take, if_pos hi,
          List.getElem?_eq_getElem hill]
        rw [Option.map_some', Option.map_some', Option.getD_some]
        rw [hmask _]
        rw [if_pos hill, List.getD_eq_getElem _ _ hill]
      · have hilge : l.length ≤ i ∨ ((max 1 rows) * (max 1 cols)).toNat ≤ i := by
          rw [List.length_map, List.length_take] at hil
          omega
        have hill : ¬ i < l.length := by omega
        rw [if_neg hil, List.getElem?_replicate,
          if_pos (by rw [List.length_map, List.length_take]; omega)]
        rw [Option.map_some', Option.getD_some]
        rw [hmask _]
        rw [if_neg hill]

/-- C2 witness: a 1x1 grid with one numeric source tile and an empty mask
returns exactly that value as a float in position 0. -/
theorem payload_tiles_spec_witness :
    (get_payload_tiles 1 1 (some [TileVal.intVal 7]) []).length
      = ((max 1 (1:ℤ)) * (max 1 (1:ℤ))).toNat
    ∧ (get_payload_tiles 1 1 (some [TileVal.intVal 7]) []).getD 0 none =
        (if ((0:ℕ) : ℤ) ∈ ([] : List ℤ) then none
         else
           match some [TileVal.intVal 7] with
           | none => some 0
           | some l => if 0 < l.length then coerce_tile (l.getD 0 TileVal.null)
                       else some 0) :=
  ⟨(payload_tiles_spec 1 1 (some [TileVal.intVal 7]) []).1,
   (payload_tiles_spec 1 1 (some [TileVal.intVal 7]) []).2 0 (by decide)⟩

/-- C8 counterexample: feeding set_latest timestamps 100, 0, 105 with a
10-second window leaves the stale sample at timestamp 0 in the history after
the insert at 105, because trimming only pops a stale prefix and the front
sample at 100 is fresh; the claimed exactness fails for non-monotonic
payload timestamps. -/
theorem history_trim_nonmonotonic_counterexample :
    set_latest_history 10 (set_latest_history 10 (set_latest_history 10 [] 100 0) 0 1) 105 2
      = [(100, 0), (0, 1), (105, 2)]
    ∧ ((0:ℚ), 1) ∈ set_latest_history 10
        (set_latest_history 10 (set_latest_history 10 [] 100 0) 0 1) 105 2
    ∧ (0:ℚ) < 105 - 10 := by
  have h1 : set_latest_history 10 [] 100 0 = [(100, 0)] := by
    norm_num [set_latest_history, trim_locked, List.dropWhile]
  have h2 : set_latest_history 10 [(100, 0)] 0 1 = [(100, 0), (0, 1)] := by
    norm_num [set_latest_history, trim_locked, List.dropWhile]
  have h3 : set_latest_history 10 [(100, 0), (0, 1)] 105 2
      = [(100, 0), (0, 1), (105, 2)] := by
    norm_num [set_latest_history, trim_locked, List.dropWhile]
  rw [h1, h2, h3]
  refine ⟨rfl, by simp, by norm_num⟩

/-- C8 amended: trimming removes only a maximal stale prefix of the history
(every removed sample is indeed stale), and whenever the stored timestamps
are non-decreasing the trim is exact: after a read, and after any set_latest
whose derived timestamp is at least every stored one, the history holds
exactly the samples with ts at least now minus history_seconds. -/
theorem history_trim_spec (hs : ℚ) (h : List Sample) (now ts : ℚ) (p : ℕ) :
    (∃ pre, h = pre ++ trim_locked hs h now ∧ ∀ s ∈ pre, s.1 < now - hs)
    ∧ (h.Pairwise (fun a b => a.1 ≤ b.1) →
        trim_locked hs h now = h.filter (fun s => decide (now - hs ≤ s.1)))
    ∧ (h.Pairwise (fun a b => a.1 ≤ b.1) → (∀ s ∈ h, s.1 ≤ ts) →
        (set_latest_history hs h ts p
            = (h ++ [(ts, p)]).filter (fun s => decide (ts - hs ≤ s.1))
          ∧ (set_latest_history hs h ts p).Pairwise (fun a b => a.1 ≤ b.1))) := by
  refine ⟨?_, ?_, ?_⟩
  · refine ⟨h.takeWhile (fun s => decide (s.1 < now - hs)), ?_, ?_⟩
    · rw [trim_locked]
      exact (List.takeWhile_append_dropWhile _ _).symm
    · intro s hsmem
      exact of_decide_eq_true
        (@List.mem_takeWhile_imp Sample (fun s => decide (s.1 < now - hs)) h s hsmem)
  · intro hsorted
    exact dropWhile_eq_filter_of_sorted (fun s : Sample => s.1) (now - hs) h hsorted
  · intro hsorted hle
    have hp : (h ++ [(ts, p)]).Pairwise (fun a b => a.1 ≤ b.1) := by
      rw [List.pairwise_append]
      exact ⟨hsorted, List.pairwise_singleton _ _, by
        intro a ha b hb
        rw [List.mem_singleton] at hb
        rw [hb]
        exact hle a ha⟩
    constructor
    · exact dropWhile_eq_filter_of_sorted (fun s : Sample => s.1) (ts - hs) _ hp
    · rw [set_latest_history, trim_locked]
      rw [dropWhile_eq_filter_of_sorted (fun s : Sample => s.1) (ts - hs) _ hp]
      exact hp.filter _

/-- C8 witness: a sorted two-sample history trims exactly and stays sorted
after an insert at a later timestamp. -/
theorem history_trim_spec_witness :
    (trim_locked 10 [(1, 0), (2, 1)] 2
        = [((1:ℚ), 0), (2, 1)].filter (fun s => decide ((2:ℚ) - 10 ≤ s.1)))
    ∧ (set_latest_history 10 [(1, 0), (2, 1)] 3 2
        = ([((1:ℚ), 0), (2, 1)] ++ [(3, 2)]).filter (fun s => decide ((3:ℚ) - 10 ≤ s.1)))
    ∧ (set_latest_history 10 [(1, 0), (2, 1)] 3 2).Pairwise (fun a b => a.1 ≤ b.1) :=
  ⟨(history_trim_spec 10 [(1, 0), (2, 1)] 2 3 2).2.1 (by decide),
   ((history_trim_spec 10 [(1, 0), (2, 1)] 2 3 2).2.2 (by decide) (by decide)).1,
   ((history_trim_spec 10 [(1, 0), (2, 1)] 2 3 2).2.2 (by decide) (by decide)).2⟩

/-- A sorted, duplicate-free, non-negative list is a fixed point of the
disabled-tiles normalization. -/
theorem set_disabled_tiles_of_normalized (y : List ℤ) (hs : y.Sorted (· ≤ ·))
    (hn : y.Nodup) (hp : ∀ i ∈ y, (0:ℤ) ≤ i) : set_disabled_tiles y = y := by
  have hfil : y.filter (fun i => decide ((0:ℤ) ≤ i)) = y :=
    List.filter_eq_self.mpr (fun a ha => decide_eq_true (hp a ha))
  unfold set_disabled_tiles
  rw [hfil]
  apply List.eq_of_perm_of_sorted _ (Finset.sort_sorted _ _) hs
  exact (Finset.sort_perm_toList _ _).trans (List.toFinset_toList hn)

/-- C9: set_disabled_tiles stores exactly the sorted duplicate-free sequence
of the non-negative integers of its input; get_disabled_tiles returns the
stored sequence unchanged; normalizing again is a no-op; and the PUT /tiles
route echoes the freshly stored list. -/
theorem disabled_tiles_spec (x : List ℤ) :
    (set_disabled_tiles x).Sorted (· ≤ ·)
    ∧ (set_disabled_tiles x).Nodup
    ∧ (∀ i : ℤ, i ∈ set_disabled_tiles x ↔ (i ∈ x ∧ 0 ≤ i))
    ∧ get_disabled_tiles (set_disabled_tiles x) = set_disabled_tiles x
    ∧ set_disabled_tiles (set_disabled_tiles x) = set_disabled_tiles x
    ∧ put_tiles x = set_disabled_tiles x := by
  have hsorted : (set_disabled_tiles x).Sorted (· ≤ ·) := Finset.sort_sorted _ _
  have hnodup : (set_disabled_tiles x).Nodup := Finset.sort_nodup _ _
  have hmem : ∀ i : ℤ, i ∈ set_disabled_tiles x ↔ (i ∈ x ∧ 0 ≤ i) := by
    intro i
    unfold set_disabled_tiles
    rw [Finset.mem_sort, List.mem_toFinset, List.mem_filter]
    simp
  exact ⟨hsorted, hnodup, hmem, rfl,
    set_disabled_tiles_of_normalized _ hsorted hnodup (fun i hi => ((hmem i).mp hi).2),
    rfl⟩

/-- The classified base state is one of the three public labels. -/
theorem tick_base_cases (no_thr low_thr g r : ℚ) (inp : TickInput) :
    tick_base no_thr low_thr g r inp = "NO_MOTION"
    ∨ tick_base no_thr low_thr g r inp = "LOW_ACTIVITY"
    ∨ tick_base no_thr low_thr g r inp = "MOTION" := by
  simp only [tick_base, classify_base_state]
  rcases resolve_label_cases g r inp.votes inp.ts (decide (inp.instant_top1 < no_thr)) with
    h0 | h0 <;> rw [h0]
  · simp
  · rw [if_neg (by decide)]
    split_ifs <;> simp

/-- C3 counterexample: the warm-up tick publishes overall NOT_OK with reasons
warming_up, not no_motion_enabled_tiles as the claim states for the warm-up
case. -/
theorem overall_warmup_counterexample :
    tick_summary 1 2 0 1
      { capture_ok := true, warm := true, all_disabled := false,
        instant_top1 := 0, ema_updated := 0, ts := 0, votes := [],
        audio_available := false, audio_detected := false }
      = ("ERROR", "NOT_OK", ["warming_up"])
    ∧ (["warming_up"] : List String) ≠ ["no_motion_enabled_tiles"] := by
  exact ⟨by decide, by decide⟩

/-- C3 amended: overall.state is OK exactly when the tick captured, was not
warming up, and either every tile is masked or the classified base state is
MOTION; an OK payload carries a video state that is ALL_TILES_DISABLED or
MOTION with some audio suffix; the NOT_OK reasons are capture_error for a
failed capture, warming_up for the warm-up tick, no_motion_enabled_tiles for
a non-MOTION classification, and the OK all-masked case carries
all_tiles_disabled. -/
theorem overall_summary_spec (no_thr low_thr g r : ℚ) (inp : TickInput) :
    ((tick_summary no_thr low_thr g r inp).2.1 = "OK"
      ↔ (inp.capture_ok = true ∧ inp.warm = false
          ∧ (inp.all_disabled = true ∨ tick_base no_thr low_thr g r inp = "MOTION")))
    ∧ ((tick_summary no_thr low_thr g r inp).2.1 = "OK" →
        ((tick_summary no_thr low_thr g r inp).1 = "ALL_TILES_DISABLED"
          ∨ ∃ suf, (tick_summary no_thr low_thr g r inp).1 = "MOTION" ++ suf))
    ∧ (inp.capture_ok = false →
        (tick_summary no_thr low_thr g r inp).2.2 = ["capture_error"])
    ∧ (inp.capture_ok = true → inp.warm = true →
        (tick_summary no_thr low_thr g r inp).2.2 = ["warming_up"])
    ∧ (inp.capture_ok = true → inp.warm = false → inp.all_disabled = true →
        ((tick_summary no_thr low_thr g r inp).2.1 = "OK"
          ∧ (tick_summary no_thr low_thr g r inp).2.2 = ["all_tiles_disabled"]))
    ∧ (inp.capture_ok = true → inp.warm = false → inp.all_disabled = false →
        ((tick_base no_thr low_thr g r inp = "MOTION" →
            (tick_summary no_thr low_thr g r inp).2.1 = "OK"
            ∧ (tick_summary no_thr low_thr g r inp).2.2 = [])
          ∧ (tick_base no_thr low_thr g r inp ≠ "MOTION" →
            (tick_summary no_thr low_thr g r inp).2.1 = "NOT_OK"
            ∧ (tick_summary no_thr low_thr g r inp).2.2 = ["no_motion_enabled_tiles"]))) := by
  obtain ⟨co, w, ad, t1, ema, ts, votes, aa, adet⟩ := inp
  cases co with
  | false => simp [tick_summary]
  | true =>
    cases w with
    | true => simp [tick_summary]
    | false =>
      cases ad with
      | true => simp [tick_summary]
      | false =>
        rcases tick_base_cases no_thr low_thr g r
          ⟨true, false, false, t1, ema, ts, votes, aa, adet⟩ with hb | hb | hb <;>
          simp only [tick_base] at hb <;>
          simp [tick_summary, tick_base, hb]

/-- C3 witness: a classified MOTION tick is OK with empty reasons and a
MOTION-prefixed state; capture failure, warm-up and all-masked ticks carry
their respective reasons. -/
theorem overall_summary_spec_witness :
    ((tick_summary 3 6 0 1
        { capture_ok := true, warm := false, all_disabled := false,
          instant_top1 := 5, ema_updated := 7, ts := 0, votes := [],
          audio_available := true, audio_detected := true }).2.1 = "OK"
      ∧ (tick_summary 3 6 0 1
        { capture_ok := true, warm := false, all_disabled := false,
          instant_top1 := 5, ema_updated := 7, ts := 0, votes := [],
          audio_available := true, audio_detected := true }).2.2 = [])
    ∧ ((tick_summary 3 6 0 1
        { capture_ok := true, warm := false, all_disabled := false,
          instant_top1 := 5, ema_updated := 7, ts := 0, votes := [],
          audio_available := true, audio_detected := true }).1 = "ALL_TILES_DISABLED"
      ∨ ∃ suf, (tick_summary 3 6 0 1
        { capture_ok := true, warm := false, all_disabled := false,
          instant_top1 := 5, ema_updated := 7, ts := 0, votes := [],
          audio_available := true, audio_detected := true }).1 = "MOTION" ++ suf)
    ∧ (tick_summary 3 6 0 1
        { capture_ok := false, warm := false, all_disabled := false,
          instant_top1 := 0, ema_updated := 0, ts := 0, votes := [],
          audio_available := false, audio_detected := false }).2.2 = ["capture_error"]
    ∧ (tick_summary 3 6 0 1
        { capture_ok := true, warm := true, all_disabled := false,
          instant_top1 := 0, ema_updated := 0, ts := 0, votes := [],
          audio_available := false, audio_detected := false }).2.2 = ["warming_up"]
    ∧ ((tick_summary 3 6 0 1
        { capture_ok := true, warm := false, all_disabled := true,
          instant_top1 := 0, ema_updated := 0, ts := 0, votes := [],
          audio_available := false, audio_detected := false }).2.1 = "OK"
      ∧ (tick_summary 3 6 0 1
        { capture_ok := true, warm := false, all_disabled := true,
          instant_top1 := 0, ema_updated := 0, ts := 0, votes := [],
          audio_available := false, audio_detected := false }).2.2 = ["all_tiles_disabled"]) :=
  ⟨((overall_summary_spec 3 6 0 1
      { capture_ok := true, warm := false, all_disabled := false,
        instant_top1 := 5, ema_updated := 7, ts := 0, votes := [],
        audio_available := true, audio_detected := true }).2.2.2.2.2
      rfl rfl rfl).1 (by decide),
   (overall_summary_spec 3 6 0 1
      { capture_ok := true, warm := false, all_disabled := false,
        instant_top1 := 5, ema_updated := 7, ts := 0, votes := [],
        audio_available := true, audio_detected := true }).2.1 (by decide),
   (overall_summary_spec 3 6 0 1
      { capture_ok := false, warm := false, all_disabled := false,
        instant_top1 := 0, ema_updated := 0, ts := 0, votes := [],
        audio_available := false, audio_detected := false }).2.2.1 rfl,
   (overall_summary_spec 3 6 0 1
      { capture_ok := true, warm := true, all_disabled := false,
        instant_top1 := 0, ema_updated := 0, ts := 0, votes := [],
        audio_available := false, audio_detected := false }).2.2.2.1 rfl rfl,
   (overall_summary_spec 3 6 0 1
      { capture_ok := true, warm := false, all_disabled := true,
        instant_top1 := 0, ema_updated := 0, ts := 0, votes := [],
        audio_available := false, audio_detected := false }).2.2.2.2.1 rfl rfl rfl⟩

/-- C5 counterexample: the loopback backend publishes detected per block with
no hysteresis or hold. The thresholds on_threshold = 1/100 and
off_threshold = 1/200 are the meter defaults, lie inside the unit interval and
pass the construction clamp unchanged (clampThreshold conjuncts), so this
trace runs through run_loopback as written. Consecutive block peaks 2/100
then 7/1000 publish detected true then false although the second peak (and
hence the one-block window mean) stays strictly above off_threshold and no
hold time has elapsed, contradicting the claimed Schmitt transition rule for
every running meter. -/
theorem loopback_no_hysteresis_counterexample :
    loopback_detected_trace (1/100) [2/100, 7/1000] = [true, false]
    ∧ clampThreshold (1/100) = 1/100
    ∧ clampThreshold (1/200) = 1/200
    ∧ (0:ℚ) ≤ 1/200 ∧ (1/200:ℚ) ≤ 1/100 ∧ (1/100:ℚ) ≤ 1
    ∧ (1/200:ℚ) < 7/1000 := by
  refine ⟨?_, by norm_num [clampThreshold], by norm_num [clampThreshold],
    by norm_num, by norm_num, by norm_num, by norm_num⟩
  simp only [loopback_detected_trace, loopback_detected, List.map_cons,
    List.map_nil, decide_eq_true_eq, decide_eq_false_iff_not,
    List.cons.injEq, and_true, eq_iff_iff, iff_true, iff_false,
    Bool.true_eq, Bool.false_eq, decide_eq_true_iff, decide_eq_false]
  constructor
  · norm_num
  · norm_num

/-- C5 amended: the pycaw backend publishes a Schmitt-triggered flag: from
false it becomes true exactly when the smoothed peak reaches on_threshold and
the hold time has elapsed, and from true it becomes false exactly when the
smoothed peak is at most off_threshold and the hold time has elapsed; the
stored flag matches the published one and the window is the bounded smoothing
deque.  The loopback backend instead publishes detected exactly when the raw
block peak reaches on_threshold, with no memory. -/
theorem audio_detected_spec (on_thr off_thr : ℚ) (hold_ms : ℤ) (smooth : ℕ)
    (st : SchmittState) (peak now : ℚ) :
    ((pycaw_step on_thr off_thr hold_ms smooth st peak now).2
      = (if st.has_audio
         then !(decide (smoothPeak smooth st.window peak ≤ off_thr)
                && decide (hold_ms ≤ elapsedMs st.last_change now))
         else (decide (on_thr ≤ smoothPeak smooth st.window peak)
               && decide (hold_ms ≤ elapsedMs st.last_change now))))
    ∧ ((pycaw_step on_thr off_thr hold_ms smooth st peak now).1.has_audio
        = (pycaw_step on_thr off_thr hold_ms smooth st peak now).2)
    ∧ ((pycaw_step on_thr off_thr hold_ms smooth st peak now).1.window
        = smoothWindow smooth st.window peak)
    ∧ (∀ p : ℚ, loopback_detected on_thr p = true ↔ on_thr ≤ p) := by
  refine ⟨?_, ?_, ?_, ?_⟩
  · simp only [pycaw_step]
    cases hha : st.has_audio
    · simp only [hha, Bool.not_false, Bool.true_and, Bool.if_false_left]
      cases hab : (decide (on_thr ≤ smoothPeak smooth st.window peak)
          && decide (hold_ms ≤ elapsedMs st.last_change now))
      · simp [hab]
      · simp [hab]
    · simp only [hha, Bool.not_true, Bool.false_and, Bool.true_and]
      cases hab : (decide (smoothPeak smooth st.window peak ≤ off_thr)
          && decide (hold_ms ≤ elapsedMs st.last_change now))
      · simp [hab]
      · simp [hab]
  · simp only [pycaw_step]
    split_ifs <;> rfl
  · simp only [pycaw_step]
    split_ifs <;> rfl
  · intro p
    unfold loopback_detected
    exact decide_eq_true_iff

namespace ClipRecorder

/-- maybeStart is the identity when the state does not match the trigger. -/
theorem maybeStart_of_not_match (cfg : RecorderCfg) (st : RecorderState)
    (now : ℚ) (state : String) (open_ok : Bool)
    (hm : state_matches_trigger cfg.trigger_state state = false) :
    maybeStart cfg st now state open_ok = st := by
  unfold maybeStart
  rw [hm]
  rfl

/-- maybeStart is the identity while a writer is open. -/
theorem maybeStart_of_open (cfg : RecorderCfg) (st : RecorderState)
    (now : ℚ) (state : String) (open_ok : Bool) (ws : List Frame)
    (hw : st.writer = some ws) :
    maybeStart cfg st now state open_ok = st := by
  have hs : st.writer.isSome = true := by rw [hw]; rfl
  unfold maybeStart
  split_ifs <;> rfl

/-- maybeStart is the identity when the cooldown blocks a restart. -/
theorem maybeStart_of_cooldown (cfg : RecorderCfg) (st : RecorderState)
    (now : ℚ) (state : String) (open_ok : Bool) (h1 : 0 < cfg.cooldown_seconds)
    (h2 : now - st.last_start_ts < (cfg.cooldown_seconds : ℚ)) :
    maybeStart cfg st now state open_ok = st := by
  unfold maybeStart
  split_ifs with ha hb hc hd <;> first | rfl | exact absurd ⟨h1, h2⟩ hc

/-- maybeStart is the identity when no VideoWriter opens: the source's
open_writer failure path returns without starting a session and with the
whole state, cooldown timestamp included, unchanged. -/
theorem maybeStart_of_open_fail (cfg : RecorderCfg) (st : RecorderState)
    (now : ℚ) (state : String) :
    maybeStart cfg st now state false = st := by
  unfold maybeStart
  split_ifs with h1 h2 h3 h4 <;> first | rfl | exact absurd (by decide) h4

/-- maybeStart opens a fresh empty clip with the full frame budget when idle,
matching, past the cooldown, and with a usable writer. -/
theorem maybeStart_opens (cfg : RecorderCfg) (st : RecorderState) (now : ℚ)
    (state : String) (hw : st.writer = none)
    (hm : state_matches_trigger cfg.trigger_state state = true)
    (hcd : cfg.cooldown_seconds ≤ 0
      ∨ (cfg.cooldown_seconds : ℚ) ≤ now - st.last_start_ts) :
    maybeStart cfg st now state true
      = { st with writer := some [], frames_left := frameBudget cfg, last_start_ts := now, stop_deadline_ts := none } := by
  have hnc : ¬ (cfg.cooldown_seconds > 0
      ∧ now - st.last_start_ts < (cfg.cooldown_seconds : ℚ)) := by
    rintro ⟨hc1, hc2⟩
    rcases hcd with h3 | h3
    · omega
    · linarith
  unfold maybeStart
  rw [hm]
  simp only [Bool.not_true, Bool.false_eq_true, if_false, hw, Option.isSome_none,
    if_false]
  rw [if_neg hnc]

/-- The frame budget is at least one frame. -/
theorem frameBudget_pos (cfg : RecorderCfg) : 1 ≤ frameBudget cfg :=
  le_max_left _ _

theorem budgetOK_init (cfg : RecorderCfg) : budgetOK cfg initState := by
  constructor
  · intro c hc
    exact absurd hc (List.not_mem_nil c)
  · intro ws hws
    exact absurd hws (by simp [initState])

theorem budgetOK_stop (cfg : RecorderCfg) (st : RecorderState)
    (h : budgetOK cfg st) : budgetOK cfg (stop st) := by
  obtain ⟨hc, hw⟩ := h
  constructor
  · intro c hmem
    simp only [stop] at hmem
    rw [List.mem_append] at hmem
    rcases hmem with hmem | hmem
    · exact hc c hmem
    · cases hst : st.writer with
      | none =>
        rw [hst] at hmem
        exact absurd hmem (List.not_mem_nil c)
      | some ws =>
        rw [hst] at hmem
        rw [List.mem_singleton] at hmem
        obtain ⟨hsum, hpos⟩ := hw ws hst
        rw [hmem]
        omega
  · intro ws hws
    exact absurd hws (by simp [stop])

theorem budgetOK_writeFrame (cfg : RecorderCfg) (st : RecorderState)
    (frame : Frame) (h : budgetOK cfg st) : budgetOK cfg (writeFrame st frame) := by
  obtain ⟨hc, hw⟩ := h
  unfold writeFrame
  cases hst : st.writer with
  | none => exact ⟨hc, hw⟩
  | some ws =>
    obtain ⟨hsum, hpos⟩ := hw ws hst
    dsimp only
    by_cases hz : st.frames_left - 1 ≤ 0
    · rw [if_pos hz]
      refine ⟨?_, ?_⟩
      · intro c hmem
        simp only [stop] at hmem
        rw [List.mem_append] at hmem
        rcases hmem with hmem | hmem
        · exact hc c hmem
        · simp only [List.mem_singleton] at hmem
          rw [hmem]
          rw [List.length_append, List.length_singleton]
          push_cast
          omega
      · intro ws2 hws2
        exact absurd hws2 (by simp [stop])
    · rw [if_neg hz]
      refine ⟨hc, ?_⟩
      intro ws2 hws2
      dsimp only at hws2 ⊢
      simp only [Option.some_inj] at hws2
      constructor
      · rw [← hws2, List.length_append, List.length_singleton]
        push_cast
        omega
      · omega

theorem budgetOK_maybeStart (cfg : RecorderCfg) (st : RecorderState)
    (now : ℚ) (state : String) (open_ok : Bool) (h : budgetOK cfg st) :
    budgetOK cfg (maybeStart cfg st now state open_ok) := by
  obtain ⟨hc, hw⟩ := h
  unfold maybeStart
  split_ifs with h1 h2 h3 h4
  · exact ⟨hc, hw⟩
  · exact ⟨hc, hw⟩
  · exact ⟨hc, hw⟩
  · exact ⟨hc, hw⟩
  · refine ⟨hc, ?_⟩
    intro ws hws
    simp only [Option.some_inj] at hws
    constructor
    · rw [← hws]
      simp [frameBudget]
    · exact frameBudget_pos cfg

theorem budgetOK_deadline (cfg : RecorderCfg) (st : RecorderState)
    (x : Option ℚ) (h : budgetOK cfg st) :
    budgetOK cfg { st with stop_deadline_ts := x } :=
  ⟨h.1, h.2⟩

theorem budgetOK_update (cfg : RecorderCfg) (st : RecorderState) (now : ℚ)
    (state : String) (frame : Frame) (open_ok : Bool) (h : budgetOK cfg st) :
    budgetOK cfg (update cfg st now state frame open_ok) := by
  unfold update
  cases hen : cfg.enabled with
  | false =>
    rw [if_pos (by decide)]
    exact h
  | true =>
    rw [if_neg (by decide)]
    have hms := budgetOK_maybeStart cfg st now state open_ok h
    cases hst1 : (maybeStart cfg st now state open_ok).writer with
    | none =>
      simp only [hst1]
      exact hms
    | some ws =>
      simp only [hst1]
      have hdl : budgetOK cfg
          { maybeStart cfg st now state open_ok with stop_deadline_ts := none } :=
        budgetOK_deadline cfg _ none hms
      have hdl2 : budgetOK cfg
          { maybeStart cfg st now state open_ok with
            stop_deadline_ts := some ((maybeStart cfg st now state open_ok).stop_deadline_ts.getD (now + (cfg.stop_grace_seconds : ℚ))) } :=
        budgetOK_deadline cfg _ _ hms
      dsimp only at hdl hdl2
      rw [hst1] at hdl hdl2
      by_cases h2 : state_matches_trigger cfg.trigger_state state = true
      · rw [if_pos h2]
        exact budgetOK_writeFrame cfg _ frame hdl
      · rw [if_neg h2]
        by_cases h3 : (maybeStart cfg st now state open_ok).stop_deadline_ts.getD
            (now + (cfg.stop_grace_seconds : ℚ)) ≤ now
        · rw [if_pos h3]
          exact budgetOK_stop cfg _ hdl2
        · rw [if_neg h3]
          exact budgetOK_writeFrame cfg _ frame hdl2

theorem budgetOK_run (cfg : RecorderCfg) (ticks : List (ℚ × String × Frame × Bool)) :
    budgetOK cfg (run cfg ticks) := by
  unfold run
  suffices hgen : ∀ st, budgetOK cfg st →
      budgetOK cfg (ticks.foldl (fun st t => update cfg st t.1 t.2.1 t.2.2.1 t.2.2.2) st) by
    exact hgen initState (budgetOK_init cfg)
  induction ticks with
  | nil => intro st h; exact h
  | cons t ts ih =>
    intro st h
    exact ih _ (budgetOK_update cfg st t.1 t.2.1 t.2.2.1 t.2.2.2 h)

end ClipRecorder

/-- C10: over every driven trace (with arbitrary per-tick writer-open
outcomes), each clip (closed or still open) holds at most
max(1, round(clip_seconds * fps)) frames; that budget is exactly the value
maybe_start assigns; write_frame while idle writes nothing; and with a
writer open, write_frame appends the frame, decrements the budget, and on
exhaustion releases the writer (moving the clip to the closed list) even
though it never inspects the trigger state. -/
theorem recorder_budget_spec (cfg : RecorderCfg) (ticks : List (ℚ × String × Frame × Bool)) :
    (∀ c ∈ ClipRecorder.allClips (ClipRecorder.run cfg ticks),
        (c.length : ℤ) ≤ ClipRecorder.frameBudget cfg)
    ∧ ClipRecorder.frameBudget cfg = max 1 (pyRound ((cfg.clip_seconds : ℚ) * cfg.fps))
    ∧ (∀ st : RecorderState, ∀ frame : Frame, st.writer = none →
        ClipRecorder.writeFrame st frame = st)
    ∧ (∀ st : RecorderState, ∀ frame : Frame, ∀ ws : List Frame, st.writer = some ws →
        ((ClipRecorder.writeFrame st frame).writer
            = (if st.frames_left - 1 ≤ 0 then none else some (ws ++ [frame]))
          ∧ (ClipRecorder.writeFrame st frame).frames_left
            = (if st.frames_left - 1 ≤ 0 then 0 else st.frames_left - 1)
          ∧ (st.frames_left - 1 ≤ 0 →
              (ClipRecorder.writeFrame st frame).closed_clips
                = st.closed_clips ++ [ws ++ [frame]]))) := by
  refine ⟨?_, rfl, ?_, ?_⟩
  · obtain ⟨hc, hw⟩ := ClipRecorder.budgetOK_run cfg ticks
    intro c hcmem
    unfold ClipRecorder.allClips at hcmem
    rw [List.mem_append] at hcmem
    rcases hcmem with hm | hm
    · exact hc c hm
    · cases hwr : (ClipRecorder.run cfg ticks).writer with
      | none =>
        rw [hwr] at hm
        exact absurd hm (List.not_mem_nil c)
      | some ws =>
        rw [hwr] at hm
        rw [List.mem_singleton] at hm
        obtain ⟨hsum, hpos⟩ := hw ws hwr
        rw [hm]
        omega
  · intro st frame hnone
    unfold ClipRecorder.writeFrame
    rw [hnone]
  · intro st frame ws hws
    unfold ClipRecorder.writeFrame
    rw [hws]
    dsimp only
    by_cases hz : st.frames_left - 1 ≤ 0
    · rw [if_pos hz]
      refine ⟨?_, ?_, fun _ => rfl⟩
      · rw [if_pos hz]
        rfl
      · rw [if_pos hz]
        rfl
    · rw [if_neg hz]
      refine ⟨?_, ?_, fun hcon => absurd hcon hz⟩
      · rw [if_neg hz]
      · rw [if_neg hz]

/-- C10 witness: an idle write is a no-op, and with one budgeted frame left
the write appends the frame, exhausts the budget, and closes the clip. -/
theorem recorder_budget_spec_witness :
    (ClipRecorder.writeFrame
        { writer := none, frames_left := 0, last_start_ts := 0, stop_deadline_ts := none, closed_clips := [] } 9
      = { writer := none, frames_left := 0, last_start_ts := 0, stop_deadline_ts := none, closed_clips := [] })
    ∧ ((ClipRecorder.writeFrame
        { writer := some [5], frames_left := 1, last_start_ts := 0, stop_deadline_ts := none, closed_clips := [] } 9).writer
      = (if (1:ℤ) - 1 ≤ 0 then none else some ([5] ++ [9])))
    ∧ ((1:ℤ) - 1 ≤ 0 →
        (ClipRecorder.writeFrame
          { writer := some [5], frames_left := 1, last_start_ts := 0, stop_deadline_ts := none, closed_clips := [] } 9).closed_clips
        = [] ++ [[5] ++ [9]]) :=
  ⟨(recorder_budget_spec
      { enabled := true, trigger_state := "NO_MOTION", clip_seconds := 2,
        cooldown_seconds := 0, fps := 1, stop_grace_seconds := 10 } []).2.2.1
      { writer := none, frames_left := 0, last_start_ts := 0, stop_deadline_ts := none, closed_clips := [] } 9 rfl,
   ((recorder_budget_spec
      { enabled := true, trigger_state := "NO_MOTION", clip_seconds := 2,
        cooldown_seconds := 0, fps := 1, stop_grace_seconds := 10 } []).2.2.2
      { writer := some [5], frames_left := 1, last_start_ts := 0, stop_deadline_ts := none, closed_clips := [] } 9 [5] rfl).1,
   ((recorder_budget_spec
      { enabled := true, trigger_state := "NO_MOTION", clip_seconds := 2,
        cooldown_seconds := 0, fps := 1, stop_grace_seconds := 10 } []).2.2.2
      { writer := some [5], frames_left := 1, last_start_ts := 0, stop_deadline_ts := none, closed_clips := [] } 9 [5] rfl).2.2⟩

/-- C4 counterexample: the recorder keeps no pre-roll ring: a frame fed while
idle on the tick immediately before the session start is not flushed into
the clip; the clip opened on the next tick (the writer opening successfully)
holds only the live frame, while the claimed pre-roll semantics (ring of at
least one frame at 10 fps with any positive pre-roll) would have emitted the
earlier frame first. -/
theorem recorder_no_preroll_counterexample :
    (ClipRecorder.run
        { enabled := true, trigger_state := "NO_MOTION", clip_seconds := 100,
          cooldown_seconds := 0, fps := 10, stop_grace_seconds := 10 }
        [(0, "MOTION", 1, true), (1, "NO_MOTION", 2, true)]).writer = some [2]
    ∧ ∀ c ∈ ClipRecorder.allClips (ClipRecorder.run
        { enabled := true, trigger_state := "NO_MOTION", clip_seconds := 100,
          cooldown_seconds := 0, fps := 10, stop_grace_seconds := 10 }
        [(0, "MOTION", 1, true), (1, "NO_MOTION", 2, true)]),
        (1 : Frame) ∉ c := by
  have hbud : ClipRecorder.frameBudget
      { enabled := true, trigger_state := "NO_MOTION", clip_seconds := 100,
        cooldown_seconds := 0, fps := 10, stop_grace_seconds := 10 } = 1000 := by
    unfold ClipRecorder.frameBudget pyRound
    norm_num
  have h1 : ClipRecorder.update
      { enabled := true, trigger_state := "NO_MOTION", clip_seconds := 100,
        cooldown_seconds := 0, fps := 10, stop_grace_seconds := 10 }
      ClipRecorder.initState 0 "MOTION" 1 true = ClipRecorder.initState := by
    unfold ClipRecorder.update
    rw [if_neg (by decide)]
    rw [ClipRecorder.maybeStart_of_not_match _ ClipRecorder.initState 0 "MOTION" true (by decide)]
    rfl
  have h2 : ClipRecorder.update
      { enabled := true, trigger_state := "NO_MOTION", clip_seconds := 100,
        cooldown_seconds := 0, fps := 10, stop_grace_seconds := 10 }
      ClipRecorder.initState 1 "NO_MOTION" 2 true
      = { writer := some [2], frames_left := 999, last_start_ts := 1,
          stop_deadline_ts := none, closed_clips := [] } := by
    unfold ClipRecorder.update
    rw [if_neg (by decide)]
    rw [ClipRecorder.maybeStart_opens _ ClipRecorder.initState 1 "NO_MOTION" rfl
      (by decide) (Or.inl (by decide))]
    dsimp only
    rw [if_pos (by decide)]
    unfold ClipRecorder.writeFrame
    dsimp only
    rw [hbud]
    rw [if_neg (by decide)]
    rfl
  have hrun : ClipRecorder.run
      { enabled := true, trigger_state := "NO_MOTION", clip_seconds := 100,
        cooldown_seconds := 0, fps := 10, stop_grace_seconds := 10 }
      [(0, "MOTION", 1, true), (1, "NO_MOTION", 2, true)]
      = { writer := some [2], frames_left := 999, last_start_ts := 1,
          stop_deadline_ts := none, closed_clips := [] } := by
    unfold ClipRecorder.run
    simp only [List.foldl_cons, List.foldl_nil]
    rw [h1, h2]
  rw [hrun]
  refine ⟨rfl, ?_⟩
  intro c hcmem
  simp only [ClipRecorder.allClips, List.nil_append] at hcmem
  rw [List.mem_singleton] at hcmem
  rw [hcmem]
  decide

/-- C4 amended: the recorder keeps no pre-roll buffer; from the idle state a
session opens exactly when the state matches the trigger, the cooldown is
disabled or elapsed, and a usable VideoWriter opens (the mp4 writer or the
avi fallback); when both writers fail, maybe_start returns with the state,
cooldown timestamp included, unchanged; a fresh session starts with an empty
clip, the full frame budget, the start time recorded and no stop deadline;
and the update tick that opens a session adds exactly the current live frame
to the recorder's clips, never any previously captured frame. -/
theorem recorder_start_spec (cfg : RecorderCfg) (st : RecorderState)
    (now : ℚ) (state : String) (frame : Frame) (open_ok : Bool) :
    (st.writer = none →
      ((ClipRecorder.maybeStart cfg st now state open_ok).writer.isSome = true
        ↔ (state_matches_trigger cfg.trigger_state state = true
            ∧ (cfg.cooldown_seconds ≤ 0
              ∨ (cfg.cooldown_seconds : ℚ) ≤ now - st.last_start_ts)
            ∧ open_ok = true)))
    ∧ ClipRecorder.maybeStart cfg st now state false = st
    ∧ (st.writer = none → (ClipRecorder.maybeStart cfg st now state open_ok).writer.isSome = true →
        ((ClipRecorder.maybeStart cfg st now state open_ok).writer = some []
          ∧ (ClipRecorder.maybeStart cfg st now state open_ok).frames_left = ClipRecorder.frameBudget cfg
          ∧ (ClipRecorder.maybeStart cfg st now state open_ok).last_start_ts = now
          ∧ (ClipRecorder.maybeStart cfg st now state open_ok).stop_deadline_ts = none))
    ∧ (cfg.enabled = true → st.writer = none →
        state_matches_trigger cfg.trigger_state state = true →
        (cfg.cooldown_seconds ≤ 0 ∨ (cfg.cooldown_seconds : ℚ) ≤ now - st.last_start_ts) →
        open_ok = true →
        ClipRecorder.allClips (ClipRecorder.update cfg st now state frame open_ok)
          = st.closed_clips ++ [[frame]]) := by
  have hblock : ∀ ok : Bool, st.writer = none →
      ¬ (state_matches_trigger cfg.trigger_state state = true
          ∧ (cfg.cooldown_seconds ≤ 0
            ∨ (cfg.cooldown_seconds : ℚ) ≤ now - st.last_start_ts)) →
      ClipRecorder.maybeStart cfg st now state ok = st := by
    intro ok hw hfail
    by_cases hm : state_matches_trigger cfg.trigger_state state = true
    · have hcd : ¬ (cfg.cooldown_seconds ≤ 0
          ∨ (cfg.cooldown_seconds : ℚ) ≤ now - st.last_start_ts) := by
        intro hcd
        exact hfail ⟨hm, hcd⟩
      push_neg at hcd
      exact ClipRecorder.maybeStart_of_cooldown cfg st now state ok
        (by omega) (by linarith [hcd.2])
    · have hm2 : state_matches_trigger cfg.trigger_state state = false := by
        cases hb : state_matches_trigger cfg.trigger_state state
        · rfl
        · exact absurd hb hm
      exact ClipRecorder.maybeStart_of_not_match cfg st now state ok hm2
  refine ⟨?_, ClipRecorder.maybeStart_of_open_fail cfg st now state, ?_, ?_⟩
  · intro hw
    constructor
    · intro hopen
      cases hok : open_ok with
      | false =>
        rw [hok] at hopen
        rw [ClipRecorder.maybeStart_of_open_fail cfg st now state] at hopen
        rw [hw] at hopen
        exact absurd hopen (by decide)
      | true =>
        rw [hok] at hopen
        refine ⟨?_, ?_, rfl⟩
        · by_contra hfailm
          rw [hblock true hw (fun hab => hfailm hab.1)] at hopen
          rw [hw] at hopen
          exact absurd hopen (by decide)
        · by_contra hfailc
          rw [hblock true hw (fun hab => hfailc hab.2)] at hopen
          rw [hw] at hopen
          exact absurd hopen (by decide)
    · rintro ⟨hm, hcd, hok⟩
      rw [hok]
      rw [ClipRecorder.maybeStart_opens cfg st now state hw hm hcd]
      rfl
  · intro hw hopen
    cases hok : open_ok with
    | false =>
      rw [hok] at hopen
      rw [ClipRecorder.maybeStart_of_open_fail cfg st now state] at hopen
      rw [hw] at hopen
      exact absurd hopen (by decide)
    | true =>
      by_cases hab : state_matches_trigger cfg.trigger_state state = true
          ∧ (cfg.cooldown_seconds ≤ 0
            ∨ (cfg.cooldown_seconds : ℚ) ≤ now - st.last_start_ts)
      · rw [ClipRecorder.maybeStart_opens cfg st now state hw hab.1 hab.2]
        exact ⟨rfl, rfl, rfl, rfl⟩
      · rw [hok] at hopen
        rw [hblock true hw hab] at hopen
        rw [hw] at hopen
        exact absurd hopen (by decide)
  · intro hen hw hm hcd ho
    rw [ho]
    unfold ClipRecorder.update
    rw [if_neg (by rw [hen]; decide)]
    rw [ClipRecorder.maybeStart_opens cfg st now state hw hm hcd]
    dsimp only
    rw [if_pos hm]
    unfold ClipRecorder.writeFrame
    dsimp only
    by_cases hz : ClipRecorder.frameBudget cfg - 1 ≤ 0
    · rw [if_pos hz]
      simp [ClipRecorder.allClips, ClipRecorder.stop]
    · rw [if_neg hz]
      simp [ClipRecorder.allClips]

/-- C4 amended witness: from the idle initial state with a matching trigger,
no cooldown, and a writer that opens, the session opens empty and the
opening update adds exactly the live frame; with a failing writer the state
is unchanged. -/
theorem recorder_start_spec_witness :
    (ClipRecorder.maybeStart
        { enabled := true, trigger_state := "NO_MOTION", clip_seconds := 2,
          cooldown_seconds := 0, fps := 1, stop_grace_seconds := 10 }
        ClipRecorder.initState 5 "NO_MOTION" true).writer.isSome = true
    ∧ ClipRecorder.maybeStart
        { enabled := true, trigger_state := "NO_MOTION", clip_seconds := 2,
          cooldown_seconds := 0, fps := 1, stop_grace_seconds := 10 }
        ClipRecorder.initState 5 "NO_MOTION" false = ClipRecorder.initState
    ∧ (ClipRecorder.maybeStart
        { enabled := true, trigger_state := "NO_MOTION", clip_seconds := 2,
          cooldown_seconds := 0, fps := 1, stop_grace_seconds := 10 }
        ClipRecorder.initState 5 "NO_MOTION" true).writer = some []
    ∧ ClipRecorder.allClips (ClipRecorder.update
        { enabled := true, trigger_state := "NO_MOTION", clip_seconds := 2,
          cooldown_seconds := 0, fps := 1, stop_grace_seconds := 10 }
        ClipRecorder.initState 5 "NO_MOTION" 7 true)
      = ClipRecorder.initState.closed_clips ++ [[7]] := by
  have hopen := (recorder_start_spec
      { enabled := true, trigger_state := "NO_MOTION", clip_seconds := 2,
        cooldown_seconds := 0, fps := 1, stop_grace_seconds := 10 }
      ClipRecorder.initState 5 "NO_MOTION" 7 true).1 rfl
  have h1 := hopen.mpr ⟨by decide, Or.inl (by decide), rfl⟩
  have h0 := (recorder_start_spec
      { enabled := true, trigger_state := "NO_MOTION", clip_seconds := 2,
        cooldown_seconds := 0, fps := 1, stop_grace_seconds := 10 }
      ClipRecorder.initState 5 "NO_MOTION" 7 true).2.1
  have h2 := (recorder_start_spec
      { enabled := true, trigger_state := "NO_MOTION", clip_seconds := 2,
        cooldown_seconds := 0, fps := 1, stop_grace_seconds := 10 }
      ClipRecorder.initState 5 "NO_MOTION" 7 true).2.2.1 rfl h1
  have h3 := (recorder_start_spec
      { enabled := true, trigger_state := "NO_MOTION", clip_seconds := 2,
        cooldown_seconds := 0, fps := 1, stop_grace_seconds := 10 }
      ClipRecorder.initState 5 "NO_MOTION" 7 true).2.2.2 rfl rfl (by decide)
      (Or.inl (by decide)) rfl
  exact ⟨h1, h0, h2.1, h3⟩


end MotionDetector


